import Mathlib

/-!
Verification of the quantum-kuiper RAG backend (streamlit_backend).

Shallow embedding of the query path of `streamlit_backend/api.py`
(`query_rag`), the curation save paths (`api.py:save_qa_pairs`,
`crawler.py:save_qa_to_supabase`), the crawler loop
(`crawler.py:crawl_website` and the crawl endpoint), and the Q&A delete
endpoint (`api.py:delete_qa_pair`).

Modelling conventions:
- A row returned by the matching engine (the `find_best_answer` Supabase
  RPC) is an `Entry`; its fields are `Option`-valued because the Python
  code reads them with `dict.get`, which yields `None` for a missing key.
  A JSON `null` value and a missing key behave identically downstream
  (both are falsy), so both are modelled as `none`.
- Python string truthiness: `None` and `""` are falsy, every other
  string truthy.
- `random.choice(FALLBACK_RESPONSES)` is modelled by an explicit index
  `rnd : Nat` reduced modulo the list length.
- Exceptions raised by the Supabase client inside the `try` block are
  modelled by the `store : Except String (Option Entry)` argument: the
  error case carries `str(e)`.
- Observable side effects (content-store access, server-side `print`
  logging) are collected in an event trace, so that "rejected before
  any store access" and "logged server-side" are statable.
-/

/-- A Q&A row as handed to the API layer by the matching engine
(`find_best_answer`). Fields mirror the dict keys read by
`api.py:query_rag`: `question`, `spoken_response`, `content`,
`similarity`, plus `priority` used by ranking/tie-break. -/
structure Entry where
  question : Option String
  spoken_response : Option String
  content : Option String
  similarity : Option ℚ
  priority : Int
  deriving DecidableEq, Repr

/-- `QueryResponse` pydantic model of `api.py`. -/
structure QueryResponse where
  text : String
  question_matched : Option String
  similarity : ℚ
  found : Bool
  threshold_met : Bool
  deriving DecidableEq, Repr

/-- Outcome of a FastAPI handler: a normal response or a raised
`HTTPException status_code detail`. -/
inductive ApiResult where
  | response (r : QueryResponse)
  | httpError (status : Nat) (detail : String)
  deriving DecidableEq, Repr

/-- Observable side effects of the query handler: an access to the
content store (the Supabase lookup), or a server-side log line
(`print`). -/
inductive Event where
  | storeAccess (agent_id query : String)
  | serverLog (msg : String)
  deriving DecidableEq, Repr

/-- Python `str.strip()` (no arguments): drop leading and trailing
whitespace, modelled over the underlying character list. -/
def py_strip (s : String) : String :=
  String.mk (((s.data.dropWhile Char.isWhitespace).reverse.dropWhile
    Char.isWhitespace).reverse)

/-- `SIMILARITY_THRESHOLD = 0.3` from `api.py`. -/
def SIMILARITY_THRESHOLD : ℚ := 3 / 10

/-- The fixed `FALLBACK_RESPONSES` list from `api.py`. -/
def FALLBACK_RESPONSES : List String :=
  ["I don\x27t have specific information about that. Would you like me to help with something else?",
   "I\x27m not sure about that particular question. Is there something else I can help you with?",
   "That\x27s not something I have information on. Feel free to ask about our services or hours."]

/-- `random.choice(FALLBACK_RESPONSES)` with the random draw made
explicit as an index modulo the list length. -/
def fallback_choice (rnd : Nat) : String :=
  FALLBACK_RESPONSES.getD (rnd % FALLBACK_RESPONSES.length) ""

/-- `result.get('spoken_response') or result.get('content', '')` from
`api.py:query_rag`: the spoken response when truthy, else the content
(with `""` standing for a falsy content). -/
def response_text_of (e : Entry) : String :=
  match e.spoken_response with
  | some s => if s = "" then e.content.getD "" else s
  | none => e.content.getD ""

/-- `float(result.get('similarity', 0) or 0)` from `api.py:query_rag`. -/
def sim_of (e : Entry) : ℚ :=
  e.similarity.getD 0

/-- The `POST /api/query` handler `query_rag` of `api.py`, with the
store lookup result and the random fallback index as explicit inputs,
returning the handler outcome paired with its event trace. -/
def query_rag (agent_id query : String) (store : Except String (Option Entry))
    (rnd : Nat) : ApiResult × List Event :=
  if agent_id = "" ∨ py_strip agent_id = "" then
    (ApiResult.httpError 400 "agent_id is required for agent isolation", [])
  else
    match store with
    | Except.error e =>
        (ApiResult.httpError 500 e,
         [Event.storeAccess agent_id query,
          Event.serverLog ("[RAG] Error querying for agent " ++ agent_id ++ ": " ++ e)])
    | Except.ok none =>
        (ApiResult.response ⟨fallback_choice rnd, none, 0, false, false⟩,
         [Event.storeAccess agent_id query])
    | Except.ok (some result) =>
        let similarity := sim_of result
        if SIMILARITY_THRESHOLD ≤ similarity then
          if response_text_of result ≠ "" then
            (ApiResult.response
               ⟨response_text_of result, result.question, similarity, true, true⟩,
             [Event.storeAccess agent_id query])
          else
            (ApiResult.response
               ⟨fallback_choice rnd, result.question, similarity, false, false⟩,
             [Event.storeAccess agent_id query])
        else
          (ApiResult.response
             ⟨fallback_choice rnd, result.question, similarity, false, false⟩,
           [Event.storeAccess agent_id query])

/-- Modelled from the spec: the `find_best_answer` database function (an
RPC) is not part of src/ — only its caller
`supabase_client.py:find_best_answer` is. Per spec section 4.1 it scores
every entry of the agent's KB and returns the single maximum-scoring row
(ties broken by priority descending, then first in creation order), and
returns no rows when the agent has no KB or no entries. -/
def rpc_find_best_answer (score : Entry → ℚ) : List Entry → List Entry
  | [] => []
  | e :: es =>
      [es.foldl (fun best x =>
        if score best < score x ∨ (score best = score x ∧ best.priority < x.priority)
        then x else best) e]

/-- `supabase_client.py:find_best_answer`: returns the first row of the
RPC result, or `None` when the RPC returned no rows. -/
def find_best_answer (rpc_data : List Entry) : Option Entry :=
  rpc_data.head?

/-- Projection of the `question_matched` field of a handler outcome. -/
def qm_of : ApiResult → Option String
  | ApiResult.response r => r.question_matched
  | ApiResult.httpError _ _ => none

/-- Knowledge-base lifecycle status (`processing`, `crawled`, `ready`). -/
inductive KBStatus where
  | processing
  | crawled
  | ready
  deriving DecidableEq, Repr

/-- A curated Q&A pair as submitted to the save endpoints (`QAPair`
pydantic model of `api.py`). -/
structure QAPair where
  question : String
  spoken_response : String
  keywords : List String
  priority : Int
  deriving DecidableEq, Repr

/-- `crawler.py:save_qa_to_supabase`: each `save_curated_qa` insert sits
in its own try/except, so a failed insert is skipped and the loop
continues; the Bool paired with each pair models whether its insert
succeeds. After the loop the KB status is set to ready by
`update_kb_status(client, kb_id, 'ready')`, unconditionally. Returns
the saved count paired with the final KB status. -/
def save_qa_to_supabase (qa_pairs : List (QAPair × Bool)) : Nat × KBStatus :=
  let saved_count := qa_pairs.foldl (fun n qa => if qa.snd then n + 1 else n) 0
  (saved_count, KBStatus.ready)

/-- The save loop of `api.py:save_qa_pairs`: inserts are not individually
guarded, so the first failing insert raises out of the loop. -/
def save_qa_pairs_loop : List (QAPair × Bool) → Nat → Except String Nat
  | [], n => Except.ok n
  | qa :: rest, n =>
      if qa.snd then save_qa_pairs_loop rest (n + 1)
      else Except.error "save failed"

/-- `api.py:save_qa_pairs` (`POST /api/qa/save`): runs the save loop; on
success marks the KB ready and returns the saved count, on a raised
insert error answers HTTP 500 via the except block and the KB keeps its
prior status (`update_kb_status` is never reached). Returns the
endpoint outcome paired with the final KB status. -/
def save_qa_pairs (qa_pairs : List (QAPair × Bool)) (prior : KBStatus) :
    Except String Nat × KBStatus :=
  match save_qa_pairs_loop qa_pairs 0 with
  | Except.ok n => (Except.ok n, KBStatus.ready)
  | Except.error e => (Except.error e, prior)

/-- A crawled page record, the subset of the dict built by
`crawler.py:extract_page_content` that `crawl_website` consumes:
`url`, `success`, `internal_links`, plus the extracted `title` and
`content` carried along. -/
structure Page where
  url : String
  success : Bool
  internal_links : List String
  title : String
  content : String
  deriving DecidableEq, Repr

/-- The link-queueing loop of `crawl_website`: each internal link is
appended to `to_visit` when it is in neither `visited` nor the current
`to_visit` (so duplicates within one page are also skipped). -/
def add_links (visited : List String) (to_visit : List String)
    (links : List String) : List String :=
  links.foldl (fun tv l => if l ∈ visited ∨ l ∈ tv then tv else tv ++ [l]) to_visit

/-- The while loop of `crawler.py:crawl_website`, with page fetching
(`extract_page_content`) abstracted as `fetch` and an explicit `fuel`
bound on loop iterations (the Python loop always terminates because at
most `1 + 20 * max_pages` URLs ever enter the queue; every property
below is proved for all fuel values). The loop also records the trace
of fetched URLs. -/
def crawl_loop (fetch : String → Page) : Nat → List String → List String →
    List Page → Nat → List String → List Page × List String
  | 0, _, _, pages, _, trace => (pages, trace)
  | fuel + 1, visited, to_visit, pages, max_pages, trace =>
      match to_visit with
      | [] => (pages, trace)
      | url :: rest =>
          if pages.length < max_pages then
            if url ∈ visited then
              crawl_loop fetch fuel visited rest pages max_pages trace
            else
              let page := fetch url
              if page.success then
                crawl_loop fetch fuel (url :: visited)
                  (add_links (url :: visited) rest page.internal_links)
                  (pages ++ [page]) max_pages (trace ++ [url])
              else
                crawl_loop fetch fuel (url :: visited) rest pages max_pages
                  (trace ++ [url])
          else (pages, trace)

/-- `crawler.py:crawl_website`: breadth-first crawl from the start URL. -/
def crawl_website (fetch : String → Page) (start_url : String)
    (max_pages fuel : Nat) : List Page :=
  (crawl_loop fetch fuel [] [start_url] [] max_pages []).fst

/-- The sequence of URLs actually fetched by `crawl_website`. -/
def crawl_trace (fetch : String → Page) (start_url : String)
    (max_pages fuel : Nat) : List String :=
  (crawl_loop fetch fuel [] [start_url] [] max_pages []).snd

/-- `crawler.py:crawl_and_store`: crawls, stores each page (each
`save_website_data` call sits in its own try/except — `saveOk` models
whether storing a page succeeds), collects Q&A suggestions
(`extract_qa_suggestions` abstracted as `suggest`), marks the KB
crawled, and returns (kb_id, pages_crawled, pages_stored,
qa_suggestions) together with the final KB status. `kb_id` comes from
`get_or_create_knowledge_base`, abstracted as an input. -/
def crawl_and_store (fetch : String → Page) (saveOk : String → Bool)
    (suggest : Page → List (String × String × List String)) (kb_id : String)
    (website_url : String) (max_pages fuel : Nat) :
    (String × Nat × Nat × List (String × String × List String)) × KBStatus :=
  let pages := crawl_website fetch website_url max_pages fuel
  let pages_stored := (pages.filter (fun p => saveOk p.url)).length
  let all_suggestions := pages.foldl (fun acc p => acc ++ suggest p) []
  ((kb_id, pages.length, pages_stored, all_suggestions), KBStatus.crawled)

/-- `CrawlResponse` pydantic model of `api.py` (the `qa_suggestions`
payload is carried separately by `crawl_and_store`). -/
structure CrawlResponse where
  success : Bool
  kb_id : String
  pages_crawled : Nat
  pages_saved : Nat
  message : String
  deriving DecidableEq, Repr

/-- `api.py:crawl_website_endpoint` (`POST /api/crawl`): reports failure
exactly when zero pages were crawled, success otherwise. -/
def crawl_website_endpoint (fetch : String → Page) (saveOk : String → Bool)
    (suggest : Page → List (String × String × List String)) (kb_id : String)
    (url : String) (max_pages fuel : Nat) : CrawlResponse :=
  let r := (crawl_and_store fetch saveOk suggest kb_id url max_pages fuel).fst
  if r.2.1 = 0 then
    ⟨false, "", 0, 0, "Failed to crawl website. Please check the URL."⟩
  else
    ⟨true, r.1, r.2.1, r.2.2.1,
      "Successfully crawled " ++ toString r.2.1 ++ " pages and saved " ++
        toString r.2.2.1 ++ " to Supabase."⟩

/-- A `document_chunks` row as touched by the Q&A delete endpoint. -/
structure Chunk where
  id : String
  kb_id : String
  question : Option String
  deriving DecidableEq, Repr

/-- `client.table('document_chunks').delete().eq('id', qa_id)` as run by
both `api.py:delete_qa_pair` and `supabase_client.py:delete_qa_pair`:
removes every row whose id equals `qa_id`, with no other filter. -/
def delete_qa_pair (chunks : List Chunk) (qa_id : String) : List Chunk :=
  chunks.filter (fun c => c.id ≠ qa_id)

/-- `api.py:delete_qa_pair` (`DELETE /api/qa/{agent_id}/{qa_id}`): runs
the delete filtered by id only and answers success with the deleted id;
the `agent_id` path parameter is never consulted. Returns the response
(success flag, deleted_id) paired with the resulting table. -/
def delete_qa_pair_endpoint (chunks : List Chunk) (agent_id qa_id : String) :
    (Bool × String) × List Chunk :=
  ((true, qa_id), delete_qa_pair chunks qa_id)

/-- Concrete fetch function used by the crawl witness: the seed page
links to one good page and one bad URL; the bad URL fails to fetch. -/
def fetch_w : String → Page :=
  fun u =>
    if u = "https://ex.com" then
      ⟨u, true, ["https://ex.com/a", "https://ex.com/bad"], "Home", "hours and services"⟩
    else if u = "https://ex.com/a" then
      ⟨u, true, ["https://ex.com"], "About", "contact us"⟩
    else
      ⟨u, false, [], "Error", ""⟩

theorem fallback_choice_mem (rnd : Nat) : fallback_choice rnd ∈ FALLBACK_RESPONSES := by
  have h : rnd % FALLBACK_RESPONSES.length < FALLBACK_RESPONSES.length :=
    Nat.mod_lt rnd (by simp [FALLBACK_RESPONSES])
  unfold fallback_choice
  rw [List.getD_eq_getElem _ _ h]
  exact List.getElem_mem h

theorem fallback_choice_ne_empty (rnd : Nat) : fallback_choice rnd ≠ "" := by
  intro hc
  have h := fallback_choice_mem rnd
  rw [hc] at h
  revert h
  decide

/-- C1: whenever the matching engine returns an entry with similarity at
least the 0.30 threshold and a non-empty spoken_response-or-content
text, the query endpoint returns exactly that text verbatim, with the
entry's question, found = true and threshold_met = true. -/
theorem C1_threshold_met_returns_verbatim (agent query : String) (e : Entry)
    (rnd : Nat) (hagent : ¬(agent = "" ∨ py_strip agent = ""))
    (hsim : SIMILARITY_THRESHOLD ≤ sim_of e)
    (htext : response_text_of e ≠ "") :
    (query_rag agent query (Except.ok (some e)) rnd).fst =
      ApiResult.response ⟨response_text_of e, e.question, sim_of e, true, true⟩ := by
  simp [query_rag, hagent, hsim, htext]

theorem C1_witness :
    (query_rag "agent-1" "what are your hours"
        (Except.ok (some ⟨some "What are your hours?", some "Open 9 to 5.",
          none, some (9 / 10), 10⟩)) 0).fst =
      ApiResult.response
        ⟨"Open 9 to 5.", some "What are your hours?", 9 / 10, true, true⟩ := by
  have h := C1_threshold_met_returns_verbatim "agent-1" "what are your hours"
    ⟨some "What are your hours?", some "Open 9 to 5.", none, some (9 / 10), 10⟩ 0
    (by decide) (by norm_num [SIMILARITY_THRESHOLD, sim_of])
    (by decide)
  simpa [response_text_of, sim_of] using h

/-- C2 (amended): when the best entry's similarity is below the 0.30
threshold, the returned text is a member of the fixed fallback set, with
found = false and threshold_met = false; it differs from the
spoken_response and content of every entry whose texts are not
themselves members of the fallback set. -/
theorem C2_below_threshold_returns_fallback (agent query : String) (e : Entry)
    (rnd : Nat) (entries : List Entry)
    (hagent : ¬(agent = "" ∨ py_strip agent = ""))
    (hsim : sim_of e < SIMILARITY_THRESHOLD)
    (hdisj : ∀ x ∈ entries, ∀ s : String,
      (x.spoken_response = some s ∨ x.content = some s) → s ∉ FALLBACK_RESPONSES) :
    (query_rag agent query (Except.ok (some e)) rnd).fst =
      ApiResult.response ⟨fallback_choice rnd, e.question, sim_of e, false, false⟩ ∧
    fallback_choice rnd ∈ FALLBACK_RESPONSES ∧
    (∀ x ∈ entries, ∀ s : String,
      (x.spoken_response = some s ∨ x.content = some s) → fallback_choice rnd ≠ s) := by
  have hnot : ¬ SIMILARITY_THRESHOLD ≤ sim_of e := not_le.mpr hsim
  refine ⟨by simp [query_rag, hagent, hnot], fallback_choice_mem rnd, ?_⟩
  intro x hx s hs heq
  exact hdisj x hx s hs (heq ▸ fallback_choice_mem rnd)

theorem C2_witness :
    (query_rag "agent-1" "asdkjasdkj"
        (Except.ok (some ⟨some "What are your hours?", some "Open 9 to 5.",
          none, some (1 / 10), 10⟩)) 2).fst =
      ApiResult.response
        ⟨fallback_choice 2, some "What are your hours?", sim_of
          ⟨some "What are your hours?", some "Open 9 to 5.", none, some (1 / 10), 10⟩,
          false, false⟩ ∧
    fallback_choice 2 ∈ FALLBACK_RESPONSES ∧
    fallback_choice 2 ≠ "Open 9 to 5." := by
  have h := C2_below_threshold_returns_fallback "agent-1" "asdkjasdkj"
    ⟨some "What are your hours?", some "Open 9 to 5.", none, some (1 / 10), 10⟩ 2
    [⟨some "What are your hours?", some "Open 9 to 5.", none, some (1 / 10), 10⟩]
    (by decide) (by norm_num [SIMILARITY_THRESHOLD, sim_of])
    (by
      intro x hx s hs
      simp only [List.mem_singleton] at hx
      subst hx
      rcases hs with h1 | h1
      · simp only [] at h1
        injection h1 with h2
        subst h2
        decide
      · simp at h1)
  refine ⟨h.1, h.2.1, ?_⟩
  exact h.2.2 ⟨some "What are your hours?", some "Open 9 to 5.", none, some (1 / 10), 10⟩
    (by simp) "Open 9 to 5." (Or.inl rfl)

/-- C2 counterexample: the claim says the text returned on a
below-threshold query is never any entry's spoken_response or content;
but when an entry's spoken_response happens to equal one of the three
fallback strings, the fallback pick can coincide with it byte-for-byte. -/
theorem C2_counterexample :
    (query_rag "agent-1" "anything"
        (Except.ok (some ⟨some "matched question",
          some "I don\x27t have specific information about that. Would you like me to help with something else?",
          none, some (1 / 10), 0⟩)) 0).fst =
      ApiResult.response
        ⟨"I don\x27t have specific information about that. Would you like me to help with something else?",
         some "matched question", 1 / 10, false, false⟩ ∧
    (Entry.spoken_response ⟨some "matched question",
        some "I don\x27t have specific information about that. Would you like me to help with something else?",
        none, some (1 / 10), 0⟩) =
      some "I don\x27t have specific information about that. Would you like me to help with something else?" := by
  constructor
  · have hps : ¬ (py_strip "agent-1" = "") := by decide
    have hag : ¬ (("agent-1" : String) = "") := by decide
    norm_num [query_rag, sim_of, hps, hag, SIMILARITY_THRESHOLD, fallback_choice,
      FALLBACK_RESPONSES]
  · rfl

/-- C3: a request whose agent_id is empty or whitespace-only is rejected
with a 400 validation error, and its event trace is empty — in
particular no content-store access occurs. -/
theorem C3_empty_agent_rejected_before_store (agent query : String)
    (store : Except String (Option Entry)) (rnd : Nat)
    (hagent : agent = "" ∨ py_strip agent = "") :
    query_rag agent query store rnd =
      (ApiResult.httpError 400 "agent_id is required for agent isolation", []) ∧
    ∀ a q, Event.storeAccess a q ∉ (query_rag agent query store rnd).snd := by
  refine ⟨by simp [query_rag, hagent], ?_⟩
  intro a q
  simp [query_rag, hagent]

theorem C3_witness :
    ("   " = "" ∨ py_strip "   " = "") ∧
    query_rag "   " "hello" (Except.ok none) 7 =
      (ApiResult.httpError 400 "agent_id is required for agent isolation", []) := by
  refine ⟨Or.inr (by decide), ?_⟩
  exact (C3_empty_agent_rejected_before_store "   " "hello" (Except.ok none) 7
    (Or.inr (by decide))).1

/-- C4: when the best entry's spoken_response and content are both empty
or absent, the handler never returns an empty string as a success; it
returns the fallback text with found = false and threshold_met = false,
whatever the similarity score — including at or above 0.30. -/
theorem C4_empty_texts_fall_back (agent query : String) (e : Entry) (rnd : Nat)
    (hagent : ¬(agent = "" ∨ py_strip agent = ""))
    (hspoken : e.spoken_response = none ∨ e.spoken_response = some "")
    (hcontent : e.content = none ∨ e.content = some "") :
    (query_rag agent query (Except.ok (some e)) rnd).fst =
      ApiResult.response ⟨fallback_choice rnd, e.question, sim_of e, false, false⟩ ∧
    fallback_choice rnd ≠ "" := by
  have htext : response_text_of e = "" := by
    rcases hspoken with h1 | h1 <;> rcases hcontent with h2 | h2 <;>
      simp [response_text_of, h1, h2]
  refine ⟨?_, fallback_choice_ne_empty rnd⟩
  by_cases hsim : SIMILARITY_THRESHOLD ≤ sim_of e
  · simp [query_rag, hagent, hsim, htext]
  · simp [query_rag, hagent, hsim]

theorem C4_witness :
    (query_rag "agent-1" "q"
        (Except.ok (some ⟨some "Q?", none, none, some (9 / 10), 0⟩)) 0).fst =
      ApiResult.response
        ⟨fallback_choice 0, some "Q?", sim_of ⟨some "Q?", none, none, some (9 / 10), 0⟩,
          false, false⟩ ∧
    fallback_choice 0 ≠ "" := by
  exact C4_empty_texts_fall_back "agent-1" "q"
    ⟨some "Q?", none, none, some (9 / 10), 0⟩ 0
    (by decide) (Or.inl rfl) (Or.inl rfl)

/-- C5: whenever the matching engine returns an entry (whose question is
present, as curated entries always carry one), question_matched is that
entry's question even on the below-threshold path; when the engine
returns no entry, question_matched is null. -/
theorem C5_question_matched_iff_entry (agent query : String) (e : Entry)
    (q : String) (rnd : Nat)
    (hagent : ¬(agent = "" ∨ py_strip agent = ""))
    (hq : e.question = some q) :
    qm_of (query_rag agent query (Except.ok (some e)) rnd).fst = some q ∧
    (query_rag agent query (Except.ok none) rnd).fst =
      ApiResult.response ⟨fallback_choice rnd, none, 0, false, false⟩ := by
  constructor
  · by_cases hsim : SIMILARITY_THRESHOLD ≤ sim_of e
    · by_cases htext : response_text_of e = ""
      · simp [query_rag, qm_of, hagent, hsim, htext, hq]
      · simp [query_rag, qm_of, hagent, hsim, htext, hq]
    · simp [query_rag, qm_of, hagent, hsim, hq]
  · simp [query_rag, hagent]

theorem C5_witness :
    qm_of (query_rag "agent-1" "something"
        (Except.ok (some ⟨some "Where are you?", none, none, some (1 / 10), 0⟩)) 1).fst =
      some "Where are you?" ∧
    (query_rag "agent-1" "something" (Except.ok none) 1).fst =
      ApiResult.response ⟨fallback_choice 1, none, 0, false, false⟩ := by
  exact C5_question_matched_iff_entry "agent-1" "something"
    ⟨some "Where are you?", none, none, some (1 / 10), 0⟩ "Where are you?" 1
    (by decide) rfl

/-- C6: for an agent with no KB or no entries the modelled ranking RPC
returns no rows, `find_best_answer` returns none, and the handler
answers found = false, threshold_met = false, similarity = 0,
question_matched = null, with a non-empty text from the fallback set. -/
theorem C6_empty_corpus_fallback (agent query : String) (score : Entry → ℚ)
    (rnd : Nat) (hagent : ¬(agent = "" ∨ py_strip agent = "")) :
    find_best_answer (rpc_find_best_answer score []) = none ∧
    (query_rag agent query
        (Except.ok (find_best_answer (rpc_find_best_answer score []))) rnd).fst =
      ApiResult.response ⟨fallback_choice rnd, none, 0, false, false⟩ ∧
    fallback_choice rnd ∈ FALLBACK_RESPONSES ∧ fallback_choice rnd ≠ "" := by
  refine ⟨rfl, ?_, fallback_choice_mem rnd, fallback_choice_ne_empty rnd⟩
  simp [query_rag, hagent, find_best_answer, rpc_find_best_answer]

theorem C6_witness :
    find_best_answer (rpc_find_best_answer sim_of []) = none ∧
    (query_rag "agent-1" "hello"
        (Except.ok (find_best_answer (rpc_find_best_answer sim_of []))) 5).fst =
      ApiResult.response ⟨fallback_choice 5, none, 0, false, false⟩ ∧
    fallback_choice 5 ∈ FALLBACK_RESPONSES ∧ fallback_choice 5 ≠ "" := by
  exact C6_empty_corpus_fallback "agent-1" "hello" sim_of 5 (by decide)

/-- C7 (amended): an internal failure during query handling is caught,
logged server-side with the agent id, and surfaced as an HTTP 500 whose
detail is the internal exception message itself — the diagnostic detail
is passed through to the caller, not replaced by a generic message. -/
theorem C7_internal_error_surfaces_detail (agent query err : String) (rnd : Nat)
    (hagent : ¬(agent = "" ∨ py_strip agent = "")) :
    query_rag agent query (Except.error err) rnd =
      (ApiResult.httpError 500 err,
       [Event.storeAccess agent query,
        Event.serverLog ("[RAG] Error querying for agent " ++ agent ++ ": " ++ err)]) := by
  simp [query_rag, hagent]

theorem C7_witness :
    query_rag "agent-1" "hello" (Except.error "boom") 0 =
      (ApiResult.httpError 500 "boom",
       [Event.storeAccess "agent-1" "hello",
        Event.serverLog "[RAG] Error querying for agent agent-1: boom"]) := by
  have h := C7_internal_error_surfaces_detail "agent-1" "hello" "boom" 0 (by decide)
  simpa using h

/-- C7 counterexample: the claim says internal diagnostic detail is not
leaked to the caller, but the 500 response carries the internal
exception string verbatim as its detail. -/
theorem C7_counterexample :
    (query_rag "agent-1" "hello"
        (Except.error "connection to db host 10.0.0.5 refused") 0).fst =
      ApiResult.httpError 500 "connection to db host 10.0.0.5 refused" := by
  have hps : ¬ (py_strip "agent-1" = "") := by decide
  simp [query_rag, hps]

theorem save_count_eq_filter (l : List (QAPair × Bool)) (n : Nat) :
    l.foldl (fun m qa => if qa.snd then m + 1 else m) n =
      n + (l.filter (fun qa => qa.snd)).length := by
  induction l generalizing n with
  | nil => simp
  | cons a t ih =>
      cases ha : a.snd <;> simp [List.filter_cons, ha, ih] <;> omega

theorem save_loop_all_ok (l : List (QAPair × Bool)) :
    ∀ n : Nat, (∀ qa ∈ l, qa.snd = true) →
      save_qa_pairs_loop l n = Except.ok (n + l.length) := by
  induction l with
  | nil => intro n _; simp [save_qa_pairs_loop]
  | cons a t ih =>
      intro n h
      have ha : a.snd = true := h a (List.mem_cons_self a t)
      simp [save_qa_pairs_loop, ha,
        ih (n + 1) (fun qa hqa => h qa (List.mem_cons_of_mem a hqa))]
      omega

/-- C8 (amended): both curation save paths set the KB status to ready at
the end of the batch regardless of how many entries were saved — the
crawler path always (failed inserts are skipped and counted out), the
api path whenever no insert raises (in particular for an empty batch);
the transition is not conditional on at least one successful save. -/
theorem C8_ready_regardless_of_saves (qa_pairs : List (QAPair × Bool))
    (prior : KBStatus) :
    (save_qa_to_supabase qa_pairs).snd = KBStatus.ready ∧
    (save_qa_to_supabase qa_pairs).fst =
      (qa_pairs.filter (fun qa => qa.snd)).length ∧
    ((∀ qa ∈ qa_pairs, qa.snd = true) →
      save_qa_pairs qa_pairs prior = (Except.ok qa_pairs.length, KBStatus.ready)) := by
  refine ⟨rfl, ?_, ?_⟩
  · simpa [save_qa_to_supabase] using save_count_eq_filter qa_pairs 0
  · intro h
    simp [save_qa_pairs, save_loop_all_ok qa_pairs 0 h]

theorem C8_witness :
    save_qa_pairs [(⟨"q1", "r1", ["k"], 5⟩, true)] KBStatus.processing =
      (Except.ok 1, KBStatus.ready) := by
  have h := (C8_ready_regardless_of_saves [(⟨"q1", "r1", ["k"], 5⟩, true)]
    KBStatus.processing).2.2 (by decide)
  simpa using h

/-- C8 counterexample: a batch with zero successful saves still
transitions the KB to ready — an empty batch on the api path, and a
batch whose single insert fails on the crawler path. -/
theorem C8_counterexample :
    save_qa_pairs [] KBStatus.processing = (Except.ok 0, KBStatus.ready) ∧
    save_qa_to_supabase
        [(⟨"What are your hours?", "Open 9 to 5.", ["hours"], 5⟩, false)] =
      (0, KBStatus.ready) := by
  exact ⟨rfl, rfl⟩

theorem crawl_loop_length_le (fetch : String → Page) (fuel : Nat) :
    ∀ (v tv : List String) (pages : List Page) (mp : Nat) (tr : List String),
      pages.length ≤ mp →
      (crawl_loop fetch fuel v tv pages mp tr).fst.length ≤ mp := by
  induction fuel with
  | zero => intro v tv pages mp tr h; simpa [crawl_loop] using h
  | succ fuel ih =>
      intro v tv pages mp tr h
      cases tv with
      | nil => simpa [crawl_loop] using h
      | cons url rest =>
          by_cases hlen : pages.length < mp
          · by_cases hv : url ∈ v
            · simpa [crawl_loop, hlen, hv] using ih v rest pages mp tr h
            · by_cases hs : (fetch url).success = true
              · have h2 : (pages ++ [fetch url]).length ≤ mp := by
                  simp only [List.length_append, List.length_singleton]
                  omega
                simpa [crawl_loop, hlen, hv, hs] using
                  ih (url :: v) (add_links (url :: v) rest (fetch url).internal_links)
                    (pages ++ [fetch url]) mp (tr ++ [url]) h2
              · simpa [crawl_loop, hlen, hv, hs] using
                  ih (url :: v) rest pages mp (tr ++ [url]) h
          · simpa [crawl_loop, hlen] using h

theorem crawl_loop_trace_nodup (fetch : String → Page) (fuel : Nat) :
    ∀ (v tv : List String) (pages : List Page) (mp : Nat) (tr : List String),
      tr.Nodup → (∀ u ∈ tr, u ∈ v) →
      (crawl_loop fetch fuel v tv pages mp tr).snd.Nodup := by
  induction fuel with
  | zero => intro v tv pages mp tr h1 _; simpa [crawl_loop] using h1
  | succ fuel ih =>
      intro v tv pages mp tr h1 h2
      cases tv with
      | nil => simpa [crawl_loop] using h1
      | cons url rest =>
          by_cases hlen : pages.length < mp
          · by_cases hv : url ∈ v
            · simpa [crawl_loop, hlen, hv] using ih v rest pages mp tr h1 h2
            · have hnew1 : (tr ++ [url]).Nodup := by
                simp [List.nodup_append, h1]
                intro hc
                exact hv (h2 url hc)
              have hnew2 : ∀ u ∈ tr ++ [url], u ∈ url :: v := by
                intro u hu
                rcases List.mem_append.mp hu with hu1 | hu1
                · exact List.mem_cons_of_mem url (h2 u hu1)
                · simp at hu1
                  simp [hu1]
              by_cases hs : (fetch url).success = true
              · simpa [crawl_loop, hlen, hv, hs] using
                  ih (url :: v) (add_links (url :: v) rest (fetch url).internal_links)
                    (pages ++ [fetch url]) mp (tr ++ [url]) hnew1 hnew2
              · simpa [crawl_loop, hlen, hv, hs] using
                  ih (url :: v) rest pages mp (tr ++ [url]) hnew1 hnew2
          · simpa [crawl_loop, hlen] using h1

theorem crawl_loop_all_success (fetch : String → Page) (fuel : Nat) :
    ∀ (v tv : List String) (pages : List Page) (mp : Nat) (tr : List String),
      (∀ p ∈ pages, p.success = true) →
      ∀ p ∈ (crawl_loop fetch fuel v tv pages mp tr).fst, p.success = true := by
  induction fuel with
  | zero => intro v tv pages mp tr h; simpa [crawl_loop] using h
  | succ fuel ih =>
      intro v tv pages mp tr h
      cases tv with
      | nil => simpa [crawl_loop] using h
      | cons url rest =>
          by_cases hlen : pages.length < mp
          · by_cases hv : url ∈ v
            · simpa [crawl_loop, hlen, hv] using ih v rest pages mp tr h
            · by_cases hs : (fetch url).success = true
              · have h2 : ∀ p ∈ pages ++ [fetch url], p.success = true := by
                  intro p hp
                  rcases List.mem_append.mp hp with hp1 | hp1
                  · exact h p hp1
                  · simp at hp1
                    simp [hp1, hs]
                simpa [crawl_loop, hlen, hv, hs] using
                  ih (url :: v) (add_links (url :: v) rest (fetch url).internal_links)
                    (pages ++ [fetch url]) mp (tr ++ [url]) h2
              · simpa [crawl_loop, hlen, hv, hs] using
                  ih (url :: v) rest pages mp (tr ++ [url]) h
          · simpa [crawl_loop, hlen] using h

theorem crawl_loop_urls_nodup (fetch : String → Page)
    (hurl : ∀ u, (fetch u).url = u) (fuel : Nat) :
    ∀ (v tv : List String) (pages : List Page) (mp : Nat) (tr : List String),
      (pages.map Page.url).Nodup → (∀ p ∈ pages, p.url ∈ v) →
      ((crawl_loop fetch fuel v tv pages mp tr).fst.map Page.url).Nodup := by
  induction fuel with
  | zero => intro v tv pages mp tr h1 _; simpa [crawl_loop] using h1
  | succ fuel ih =>
      intro v tv pages mp tr h1 h2
      cases tv with
      | nil => simpa [crawl_loop] using h1
      | cons url rest =>
          by_cases hlen : pages.length < mp
          · by_cases hv : url ∈ v
            · simpa [crawl_loop, hlen, hv] using ih v rest pages mp tr h1 h2
            · by_cases hs : (fetch url).success = true
              · have hnew1 : ((pages ++ [fetch url]).map Page.url).Nodup := by
                  simp [List.nodup_append, h1, hurl url]
                  intro p hp hpu
                  exact hv (hpu ▸ h2 p hp)
                have hnew2 : ∀ p ∈ pages ++ [fetch url], p.url ∈ url :: v := by
                  intro p hp
                  rcases List.mem_append.mp hp with hp1 | hp1
                  · exact List.mem_cons_of_mem url (h2 p hp1)
                  · simp at hp1
                    simp [hp1, hurl url]
                simpa [crawl_loop, hlen, hv, hs] using
                  ih (url :: v) (add_links (url :: v) rest (fetch url).internal_links)
                    (pages ++ [fetch url]) mp (tr ++ [url]) hnew1 hnew2
              · simpa [crawl_loop, hlen, hv, hs] using
                  ih (url :: v) rest pages mp (tr ++ [url]) h1
                    (fun p hp => List.mem_cons_of_mem url (h2 p hp))
          · simpa [crawl_loop, hlen] using h1

/-- C9: the crawl returns at most max_pages page records, fetches each
URL at most once, keeps only successfully fetched pages (with distinct
URLs) — a failed fetch is skipped and the loop moves on to the rest of
the queue rather than aborting — and the crawl endpoint reports an
error outcome exactly when zero pages were crawled. -/
theorem C9_crawl_properties :
    (∀ (fetch : String → Page) (start : String) (mp fuel : Nat),
      (crawl_website fetch start mp fuel).length ≤ mp) ∧
    (∀ (fetch : String → Page) (start : String) (mp fuel : Nat),
      (crawl_trace fetch start mp fuel).Nodup) ∧
    (∀ (fetch : String → Page) (start : String) (mp fuel : Nat),
      ∀ p ∈ crawl_website fetch start mp fuel, p.success = true) ∧
    (∀ fetch : String → Page, (∀ u, (fetch u).url = u) →
      ∀ (start : String) (mp fuel : Nat),
        ((crawl_website fetch start mp fuel).map Page.url).Nodup) ∧
    (∀ (fetch : String → Page) (fuel : Nat) (v : List String) (url : String)
        (rest : List String) (pages : List Page) (mp : Nat) (tr : List String),
      pages.length < mp → url ∉ v → ¬((fetch url).success = true) →
      crawl_loop fetch (fuel + 1) v (url :: rest) pages mp tr =
        crawl_loop fetch fuel (url :: v) rest pages mp (tr ++ [url])) ∧
    (∀ (fetch : String → Page) (saveOk : String → Bool)
        (suggest : Page → List (String × String × List String))
        (kb start : String) (mp fuel : Nat),
      (crawl_website_endpoint fetch saveOk suggest kb start mp fuel).success = false ↔
        crawl_website fetch start mp fuel = []) := by
  refine ⟨?_, ?_, ?_, ?_, ?_, ?_⟩
  · intro fetch start mp fuel
    exact crawl_loop_length_le fetch fuel [] [start] [] mp [] (by simp)
  · intro fetch start mp fuel
    exact crawl_loop_trace_nodup fetch fuel [] [start] [] mp [] (by simp) (by simp)
  · intro fetch start mp fuel
    exact crawl_loop_all_success fetch fuel [] [start] [] mp [] (by simp)
  · intro fetch hurl start mp fuel
    exact crawl_loop_urls_nodup fetch hurl fuel [] [start] [] mp [] (by simp) (by simp)
  · intro fetch fuel v url rest pages mp tr hlen hv hs
    simp [crawl_loop, hlen, hv, hs]
  · intro fetch saveOk suggest kb start mp fuel
    by_cases h : (crawl_website fetch start mp fuel).length = 0
    · simp [crawl_website_endpoint, crawl_and_store, h]
      exact List.length_eq_zero.mp h
    · simp [crawl_website_endpoint, crawl_and_store, h]
      intro hc
      exact h (by simp [hc])

theorem C9_witness :
    ((crawl_website fetch_w "https://ex.com" 5 100).map Page.url).Nodup ∧
    crawl_loop fetch_w 1 [] ["https://ex.com/bad"] [] 5 [] =
      crawl_loop fetch_w 0 ["https://ex.com/bad"] [] [] 5 ["https://ex.com/bad"] := by
  constructor
  · exact C9_crawl_properties.2.2.2.1 fetch_w
      (fun u => by unfold fetch_w; split_ifs <;> rfl) "https://ex.com" 5 100
  · exact C9_crawl_properties.2.2.2.2.1 fetch_w 0 [] "https://ex.com/bad" [] [] 5 []
      (by decide) (by simp) (by decide)

/-- C10: the Q&A delete endpoint deletes by qa_id alone and reports
success whatever agent_id is passed: the outcome is identical for any
two agent ids, every row with the given id is removed — even one
belonging to a different agent's KB — and no other row is touched. -/
theorem C10_delete_ignores_agent (chunks : List Chunk)
    (agent_a agent_b qa_id : String) :
    delete_qa_pair_endpoint chunks agent_a qa_id =
      delete_qa_pair_endpoint chunks agent_b qa_id ∧
    (delete_qa_pair_endpoint chunks agent_a qa_id).fst = (true, qa_id) ∧
    (∀ c ∈ chunks, c.id = qa_id →
      c ∉ (delete_qa_pair_endpoint chunks agent_a qa_id).snd) ∧
    (∀ c ∈ chunks, c.id ≠ qa_id →
      c ∈ (delete_qa_pair_endpoint chunks agent_a qa_id).snd) := by
  refine ⟨rfl, rfl, ?_, ?_⟩
  · intro c _ hid hmem
    simp [delete_qa_pair_endpoint, delete_qa_pair, List.mem_filter] at hmem
    exact hmem.2 hid
  · intro c hc hid
    simp [delete_qa_pair_endpoint, delete_qa_pair, List.mem_filter, hc, hid]

theorem C10_witness :
    delete_qa_pair_endpoint [⟨"qa-7", "kb-of-agent-B", some "Q?"⟩] "agent-A" "qa-7" =
      ((true, "qa-7"), []) ∧
    (⟨"qa-7", "kb-of-agent-B", some "Q?"⟩ : Chunk) ∉
      (delete_qa_pair_endpoint [⟨"qa-7", "kb-of-agent-B", some "Q?"⟩]
        "agent-A" "qa-7").snd := by
  refine ⟨by decide, ?_⟩
  exact (C10_delete_ignores_agent [⟨"qa-7", "kb-of-agent-B", some "Q?"⟩]
    "agent-A" "agent-A" "qa-7").2.2.1 ⟨"qa-7", "kb-of-agent-B", some "Q?"⟩
    (by simp) rfl
